import Mathlib

/-!
# Verification of pacsanini's DICOM networking core

A shallow embedding, in Lean 4, of the parts of the pacsanini code base
(`src/pacsanini`) that the specification's claims are about:

* `models.py` — `DicomNode`, `QueryLevel`, `StorageSortKey`;
* `config.py` — `MoveConfig` (time-of-day query window);
* `net/c_find.py` — validation and date windowing of `find`;
* `net/c_echo.py` — validation of `echo`;
* `net/c_move.py` — validation and per-resource yield/release trace of `move`;
* `net/storescp.py` — status codes and storage paths of `default_store_handle`;
* `db/crud.py` — `update_retrieved_study`;
* `io/base_parser.py` — the worker/consumer pipeline of `parse_dir`.

Dates are modelled as proleptic Gregorian day numbers (Python's
`datetime` + `timedelta(days=n)` arithmetic is exactly integer arithmetic
on such day numbers); times of day as microseconds since midnight
(`datetime.time` resolution); Python strings used as path components as
`List Char`.
-/

set_option autoImplicit false

namespace Pacsanini

/-! ## models.py -/

/-- `models.DicomNode` after pydantic validation: `ip` and `port` are `None`
when unset (the `validate_ip` / `validate_port` validators turn falsy values
into `None`). -/
structure DicomNode where
  aetitle : String
  ip : Option String
  port : Option Nat
  deriving Repr, DecidableEq

/-- `DicomNode.has_net_info` (the `validate_net_info` always-validator):
true iff both `ip` and `port` are set. -/
def DicomNode.has_net_info (n : DicomNode) : Bool :=
  n.ip.isSome && n.port.isSome

/-- `DicomNode.has_port`: true iff `port` is set. -/
def DicomNode.has_port (n : DicomNode) : Bool :=
  n.port.isSome

/-- `models.QueryLevel`. -/
inductive QueryLevel where
  | PATIENT
  | STUDY
  deriving Repr, DecidableEq

/-- `models.StorageSortKey`. -/
inductive StorageSortKey where
  | PATIENT
  | STUDY
  | IMAGE
  deriving Repr, DecidableEq

/-! ## Dates

`c_find.find` walks dates with `datetime` values and
`timedelta(days=15)` / `timedelta(days=1)` increments, comparing with
`<=` / `>=`.  A `datetime` at midnight is faithfully represented by its
proleptic Gregorian day number; `+ timedelta(days=k)` is `+ k` and the
comparisons are the integer ones.  `daysFromCivil` is the standard
civil-calendar day count (days relative to 1970-01-01), so concrete
calendar dates from the specification's scenarios can be written down. -/

/-- Day count of the proleptic Gregorian date `y-m-d` relative to the epoch
1970-01-01 (Howard Hinnant's `days_from_civil` algorithm, the same calendar
arithmetic as Python's `datetime.date.toordinal` up to a constant shift). -/
def daysFromCivil (y m d : Int) : Int :=
  let y' : Int := if m ≤ 2 then y - 1 else y
  let era : Int := (if 0 ≤ y' then y' else y' - 399) / 400
  let yoe : Int := y' - era * 400
  let mp : Int := if 2 < m then m - 3 else m + 9
  let doy : Int := (153 * mp + 2) / 5 + d - 1
  let doe : Int := yoe * 365 + yoe / 4 - yoe / 100 + doy
  era * 146097 + doe - 719468

/-- `daysFromCivil` shifted to be a `Nat` (days since 0000-03-01), usable as
the day-number type of the windowing function below. -/
def dayNumber (y m d : Int) : Nat :=
  (daysFromCivil y m d + 719468).toNat

/-! ## net/c_find.py — date windowing

The loop in `find` (lines 109–150 of `c_find.py`):

```python
current_date = start_date
date_increment = timedelta(days=15)
while current_date <= end_date:
    if (current_date + date_increment) >= end_date:
        upper_date = end_date
    else:
        upper_date = current_date + date_increment
    ... issue one query per lowercase letter for [current_date, upper_date] ...
    current_date += date_increment + timedelta(days=1)
```

`date_windows_loop` is this loop with an explicit fuel argument (the loop
advances `current_date` by 16 days per iteration, so `end - start + 1`
iterations are always more than enough fuel; `date_windows` supplies it). -/

/-- One `while` loop of `find`, fuelled.  Each produced pair
`(current, upper)` is the inclusive date window `StudyDate = current-upper`
of one iteration. -/
def date_windows_loop : Nat → Nat → Nat → List (Nat × Nat)
  | 0, _, _ => []
  | fuel + 1, current, end_ =>
    if current ≤ end_ then
      let upper := if end_ ≤ current + 15 then end_ else current + 15
      (current, upper) :: date_windows_loop fuel (current + 16) end_
    else []

/-- The inclusive date windows queried by `find` for the range
`[start_date, end_date]`. -/
def date_windows (start_date end_date : Nat) : List (Nat × Nat) :=
  date_windows_loop (end_date + 1 - start_date) start_date end_date

/-- Windows are consecutive: each window starts one day after the previous
window ends (no gap, no overlap). -/
def windowsConsecutive : List (Nat × Nat) → Prop
  | [] => True
  | [_] => True
  | w1 :: w2 :: rest => w2.1 = w1.2 + 1 ∧ windowsConsecutive (w2 :: rest)

instance : DecidablePred windowsConsecutive := by
  intro l
  induction l with
  | nil => exact .isTrue trivial
  | cons w1 rest ih =>
    cases rest with
    | nil => exact .isTrue trivial
    | cons w2 rest' =>
      exact @instDecidableAnd _ _ _ ih

theorem date_windows_loop_sound (fuel current end_ : Nat) :
    ∀ w ∈ date_windows_loop fuel current end_, current ≤ w.1 ∧ w.1 ≤ w.2 ∧ w.2 ≤ end_ ∧ w.2 ≤ w.1 + 15 := by
  induction fuel generalizing current with
  | zero =>
    intro w hw
    simp [date_windows_loop] at hw
  | succ n ih =>
    intro w hw
    simp only [date_windows_loop] at hw
    by_cases h : current ≤ end_
    · simp only [if_pos h, List.mem_cons] at hw
      rcases hw with rfl | hw
      · by_cases h2 : end_ ≤ current + 15 <;> simp [h2] <;> omega
      · have := ih (current + 16) w hw
        omega
    · simp [if_neg h] at hw

theorem date_windows_loop_first (fuel current end_ : Nat)
    (hle : current ≤ end_) (hfuel : 0 < fuel) :
    ∃ u rest, date_windows_loop fuel current end_ = (current, u) :: rest := by
  cases fuel with
  | zero => omega
  | succ n =>
    refine ⟨if end_ ≤ current + 15 then end_ else current + 15,
      date_windows_loop n (current + 16) end_, ?_⟩
    simp [date_windows_loop, hle]

theorem date_windows_loop_consecutive (fuel current end_ : Nat) :
    windowsConsecutive (date_windows_loop fuel current end_) := by
  induction fuel generalizing current with
  | zero => simp [date_windows_loop, windowsConsecutive]
  | succ n ih =>
    simp only [date_windows_loop]
    by_cases h : current ≤ end_
    · simp only [if_pos h]
      by_cases h15 : end_ ≤ current + 15
      · -- next iteration starts at current + 16 > end_, so the tail is []
        have htail : date_windows_loop n (current + 16) end_ = [] := by
          cases n with
          | zero => rfl
          | succ m => simp [date_windows_loop]; omega
        simp [htail, h15, windowsConsecutive]
      · -- next window starts at current + 16 = (current + 15) + 1
        rcases Nat.lt_or_ge 0 n with hn | hn
        · rcases date_windows_loop_first n (current + 16) end_ (by omega) hn with ⟨u, rest, heq⟩
          rw [heq]
          constructor
          · simp [if_neg h15]
          · rw [← heq]; exact ih (current + 16)
        · interval_cases n
          simp [date_windows_loop, windowsConsecutive, h15]
    · simp [if_neg h, windowsConsecutive]

theorem date_windows_loop_cover (fuel current end_ : Nat)
    (hfuel : end_ + 1 - current ≤ fuel) :
    ∀ d, current ≤ d → d ≤ end_ →
      ∃ w ∈ date_windows_loop fuel current end_, w.1 ≤ d ∧ d ≤ w.2 := by
  induction fuel generalizing current with
  | zero => intro d h1 h2; omega
  | succ n ih =>
    intro d h1 h2
    have hle : current ≤ end_ := le_trans h1 h2
    simp only [date_windows_loop, if_pos hle]
    by_cases h15 : end_ ≤ current + 15
    · exact ⟨(current, end_), by simp [h15], h1, h2⟩
    · by_cases hd : d ≤ current + 15
      · exact ⟨(current, current + 15), by simp [h15], h1, hd⟩
      · rcases ih (current + 16) (by omega) d (by omega) h2 with ⟨w, hw, hw1, hw2⟩
        exact ⟨w, by simp [h15]; right; exact hw, hw1, hw2⟩

/-- C2: for `start_date ≤ end_date`, `find` partitions the inclusive date
range into consecutive windows: every window lies inside the range, spans at
most 16 calendar days (inclusive), every day of the range is covered by some
window, and consecutive windows abut with no gap (each starts the day after
the previous one ends). -/
theorem find_date_windows_partition (s e : Nat) (h : s ≤ e) :
    (∀ w ∈ date_windows s e, s ≤ w.1 ∧ w.1 ≤ w.2 ∧ w.2 ≤ e ∧ w.2 + 1 - w.1 ≤ 16) ∧
    windowsConsecutive (date_windows s e) ∧
    (∀ d, s ≤ d → d ≤ e → ∃ w ∈ date_windows s e, w.1 ≤ d ∧ d ≤ w.2) := by
  refine ⟨?_, date_windows_loop_consecutive _ s e, ?_⟩
  · intro w hw
    have := date_windows_loop_sound (e + 1 - s) s e w hw
    omega
  · intro d h1 h2
    exact date_windows_loop_cover (e + 1 - s) s e (by omega) d h1 h2

/-- Witness for C2, at the specification's scenario: the 32-day range
2021-01-01 .. 2021-02-01 satisfies the partition property and is split into
exactly 2 windows. -/
theorem find_date_windows_partition_witness :
    (dayNumber 2021 1 1 ≤ dayNumber 2021 2 1) ∧
    ((∀ w ∈ date_windows (dayNumber 2021 1 1) (dayNumber 2021 2 1),
        dayNumber 2021 1 1 ≤ w.1 ∧ w.1 ≤ w.2 ∧ w.2 ≤ dayNumber 2021 2 1 ∧ w.2 + 1 - w.1 ≤ 16) ∧
      windowsConsecutive (date_windows (dayNumber 2021 1 1) (dayNumber 2021 2 1)) ∧
      (∀ d, dayNumber 2021 1 1 ≤ d → d ≤ dayNumber 2021 2 1 →
        ∃ w ∈ date_windows (dayNumber 2021 1 1) (dayNumber 2021 2 1), w.1 ≤ d ∧ d ≤ w.2)) ∧
    (date_windows (dayNumber 2021 1 1) (dayNumber 2021 2 1)).length = 2 :=
  ⟨by decide, find_date_windows_partition _ _ (by decide), by decide⟩

/-! ## config.py — MoveConfig

`MoveConfig` holds optional `start_time` / `end_time` values of type
`datetime.time`.  A `time` is microseconds since midnight; a `datetime` is
microseconds since some midnight.  `now - timedelta(hours=now.hour, ...)`
(the `today` computation of `can_query`) is `now` rounded down to midnight,
i.e. `now - now % microsecondsPerDay`. -/

def microsecondsPerDay : Nat := 86400000000

/-- Microseconds since midnight of the time of day `h:m`, for writing down
concrete `datetime.time` values. -/
def timeOfDay (h m : Nat) : Nat := (h * 3600 + m * 60) * 1000000

/-- The `validate_start_and_end_time` pre-root-validator of `MoveConfig`:
both times must be set or both unset, else a `ValueError`; equal times are
normalized to both-unset. -/
def validate_start_and_end_time (start_time end_time : Option Nat) :
    Except String (Option Nat × Option Nat) :=
  match start_time, end_time with
  | some _, none => .error "Both start_time and end_time parameters must be set or both must be unset."
  | none, some _ => .error "Both start_time and end_time parameters must be set or both must be unset."
  | none, none => .ok (none, none)
  | some s, some e => if s = e then .ok (none, none) else .ok (some s, some e)

/-- `MoveConfig.can_query`, for a config whose (validated) `start_time` and
`end_time` are as given, evaluated with `MoveConfig.now()` returning `now`
(microseconds since the epoch midnight).  Mirrors the source: unset bounds
mean always allowed; `today` is `now` rounded down to midnight; when
`end_time > start_time` the answer is `today+start < now < today+end`,
otherwise `now > today+start or now < today+end`. -/
def can_query (start_time end_time : Option Nat) (now : Nat) : Bool :=
  match start_time, end_time with
  | some s, some e =>
    let today := now - now % microsecondsPerDay
    if s < e then
      decide (today + s < now) && decide (now < today + e)
    else
      decide (today + s < now) || decide (now < today + e)
  | _, _ => true

/-- C7: `can_query` is `true` whenever either bound is unset — in particular
after constructing a config with `start_time = end_time`, which the
validator normalizes to both-unset; with `end > start` it is `true` iff the
time of day of `now` is strictly between the two bounds; with `start > end`
the window wraps around midnight, and at the specification's scenario
(start 20:00, end 07:00) it is `false` at 16:00 and `true` at 22:00. -/
theorem moveconfig_can_query_spec (now : Nat) :
    (∀ s, can_query (some s) none now = true ∧ can_query none (some s) now = true ∧
      can_query none none now = true) ∧
    (∀ t, validate_start_and_end_time (some t) (some t) = .ok (none, none)) ∧
    (∀ s e, s < e →
      (can_query (some s) (some e) now = true ↔
        (s < now % microsecondsPerDay ∧ now % microsecondsPerDay < e))) ∧
    (∀ s e, e ≤ s →
      (can_query (some s) (some e) now = true ↔
        (s < now % microsecondsPerDay ∨ now % microsecondsPerDay < e))) ∧
    can_query (some (timeOfDay 20 0)) (some (timeOfDay 7 0)) (timeOfDay 16 0) = false ∧
    can_query (some (timeOfDay 20 0)) (some (timeOfDay 7 0)) (timeOfDay 22 0) = true := by
  have hmod : now % microsecondsPerDay ≤ now := Nat.mod_le _ _
  refine ⟨fun s => ⟨rfl, rfl, rfl⟩, fun t => by simp [validate_start_and_end_time], ?_, ?_, by decide, by decide⟩
  · intro s e hse
    simp only [can_query, if_pos hse, Bool.and_eq_true, decide_eq_true_eq]
    omega
  · intro s e hes
    simp only [can_query, if_neg (by omega : ¬ s < e), Bool.or_eq_true, decide_eq_true_eq]
    omega

/-- Witness for C7, at `now = 12:00` of the epoch day and at the scenario's
window `20:00–07:00`. -/
theorem moveconfig_can_query_spec_witness :
    can_query (some (timeOfDay 20 0)) (some (timeOfDay 7 0)) (timeOfDay 12 0) = false ∧
    (can_query (some (timeOfDay 7 0)) (some (timeOfDay 20 0)) (timeOfDay 12 0) = true ↔
      (timeOfDay 7 0 < timeOfDay 12 0 % microsecondsPerDay ∧
        timeOfDay 12 0 % microsecondsPerDay < timeOfDay 20 0)) :=
  ⟨by decide, (moveconfig_can_query_spec (timeOfDay 12 0)).2.2.1 _ _ (by decide)⟩

/-! ## net/c_find.py, net/c_echo.py, net/c_move.py — pre-association phase

Each function is embedded as the straight-line code it executes before any
`ae.associate(...)` call, returning `Except String α`: `.error msg` is a
`ValueError` raised before any association attempt, `.ok` means execution
reaches the network phase.  The embeddings keep the source's order of
checks. -/

/-- The body of `find` up to (and excluding) the first association attempt:
check `called_node.has_net_info`, default `end_date` to `start_date`, check
`end_date < start_date`, then compute the date windows that the query loop
will iterate (each window leads to 26 associations, one per lowercase
letter).  An `.error` is a `ValueError` raised before any network I/O. -/
def find_pre_network (called_node : DicomNode) (start_date : Nat)
    (end_date : Option Nat) : Except String (List (Nat × Nat)) :=
  if !called_node.has_net_info then
    .error "called node does not have a network address"
  else
    let end_date' := end_date.getD start_date
    if end_date' < start_date then
      .error "the start date cannot be greater than the end date"
    else
      .ok (date_windows start_date end_date')

/-- The number of association attempts `find` makes: zero when validation
fails, one per (window, letter) pair otherwise. -/
def find_assoc_attempts (called_node : DicomNode) (start_date : Nat)
    (end_date : Option Nat) : Nat :=
  match find_pre_network called_node start_date end_date with
  | .error _ => 0
  | .ok windows => 26 * windows.length

/-- The body of `echo` up to (and excluding) `ae.associate`: check
`called_node.has_net_info`. -/
def echo_pre_network (called_node : DicomNode) : Except String Unit :=
  if !called_node.has_net_info then
    .error "called node does not have a network address"
  else
    .ok ()

/-- The body of `move` up to (and excluding) the per-resource association
loop: default `dest_node` to `local_node`, check `dest_node.has_port()`
(raising a `ValueError` otherwise), validate the `MoveConfig` times, and
start the `StoreSCPServer` (whose constructor re-checks
`dest_node.has_port()`).  No property of `called_node` is checked.  An
`.error` is an exception raised before any association attempt; `.ok dest`
means execution reaches the per-resource loop. -/
def move_pre_network (local_node called_node : DicomNode)
    (dest_node : Option DicomNode) (start_time end_time : Option Nat) :
    Except String DicomNode :=
  let dest := dest_node.getD local_node
  if !dest.has_port then
    .error "dest node does not have a set port"
  else
    match validate_start_and_end_time start_time end_time with
    | .error msg => .error msg
    | .ok _ =>
      if !dest.has_port then
        .error "node must have a set port to listen to"
      else
        .ok dest

/-- C8: whenever `end_date` is set and `end_date < start_date`, `find`
raises a `ValueError` before issuing any network I/O: its pre-network phase
errors out and consequently zero association attempts are made. -/
theorem find_invalid_date_range_fails_before_network
    (called_node : DicomNode) (start_date end_date : Nat)
    (h : end_date < start_date) :
    (∃ msg, find_pre_network called_node start_date (some end_date) = .error msg) ∧
    find_assoc_attempts called_node start_date (some end_date) = 0 := by
  by_cases hnet : called_node.has_net_info
  · refine ⟨⟨"the start date cannot be greater than the end date", ?_⟩, ?_⟩ <;>
      simp [find_pre_network, find_assoc_attempts, hnet, Option.getD, h]
  · rw [Bool.not_eq_true] at hnet
    refine ⟨⟨"called node does not have a network address", ?_⟩, ?_⟩ <;>
      simp [find_pre_network, find_assoc_attempts, hnet]

/-- Witness for C8: a concrete called node with network info and the range
2021-02-01 .. 2021-01-01 (end before start). -/
theorem find_invalid_date_range_fails_before_network_witness :
    (dayNumber 2021 1 1 < dayNumber 2021 2 1) ∧
    ((∃ msg, find_pre_network ⟨"PACS", some "127.0.0.1", some 11112⟩
        (dayNumber 2021 2 1) (some (dayNumber 2021 1 1)) = .error msg) ∧
      find_assoc_attempts ⟨"PACS", some "127.0.0.1", some 11112⟩
        (dayNumber 2021 2 1) (some (dayNumber 2021 1 1)) = 0) :=
  ⟨by decide,
    find_invalid_date_range_fails_before_network _ _ _ (by decide)⟩

/-- C3 counterexample: a called node with an IP but no port (so
`has_net_info` is false).  `move`'s pre-association phase — dest-node port
check, `MoveConfig` validation, `StoreSCPServer` startup — succeeds and
execution reaches the per-resource association loop: `move` raises no
`ValueError` for the missing called-node port prior to the association
attempt. -/
theorem move_skips_called_node_check_counterexample :
    DicomNode.has_net_info ⟨"PACS", some "127.0.0.1", none⟩ = false ∧
    move_pre_network ⟨"LOCAL", some "127.0.0.1", some 11112⟩
      ⟨"PACS", some "127.0.0.1", none⟩ none none none =
      .ok ⟨"LOCAL", some "127.0.0.1", some 11112⟩ :=
  ⟨rfl, rfl⟩

/-- C3 amended: for every call target missing host or port, `find` and
`echo` fail with a `ValueError` prior to any association attempt; `move`
performs no called-node check before associating — its pre-association
phase does not depend on the called node at all (it only validates the
destination node's port and the move times). -/
theorem called_node_validation
    (called : DicomNode) (hc : called.has_net_info = false) :
    (∀ s e, ∃ msg, find_pre_network called s e = .error msg) ∧
    (∃ msg, echo_pre_network called = .error msg) ∧
    (∀ ln called' dn st et,
      move_pre_network ln called dn st et = move_pre_network ln called' dn st et) := by
  refine ⟨?_, ?_, ?_⟩
  · intro s e
    exact ⟨"called node does not have a network address", by simp [find_pre_network, hc]⟩
  · exact ⟨"called node does not have a network address", by simp [echo_pre_network, hc]⟩
  · intro ln called' dn st et
    rfl

/-- Witness for the amended C3, at a concrete called node missing its
port. -/
theorem called_node_validation_witness :
    DicomNode.has_net_info ⟨"PACS", some "127.0.0.1", none⟩ = false ∧
    ((∀ s e, ∃ msg, find_pre_network ⟨"PACS", some "127.0.0.1", none⟩ s e = .error msg) ∧
      (∃ msg, echo_pre_network ⟨"PACS", some "127.0.0.1", none⟩ = .error msg) ∧
      (∀ ln called' dn st et,
        move_pre_network ln ⟨"PACS", some "127.0.0.1", none⟩ dn st et =
          move_pre_network ln called' dn st et)) :=
  ⟨rfl, called_node_validation _ rfl⟩

/-! ## net/c_find.py — generator semantics (C9)

The body of `find` contains `yield` statements, so in Python calling
`find(...)` compiles to creating a generator object that captures the
arguments; none of the body — validation included — runs until the first
`next()`.  `patient_find` likewise is a generator function whose body first
calls `find(...)` (creating the inner generator) and then iterates it. -/

/-- The arguments captured by a call to the generator function `find`
(restricted to those the validation consults). -/
structure FindArgs where
  local_node : DicomNode
  called_node : DicomNode
  start_date : Nat
  end_date : Option Nat
  deriving Repr, DecidableEq

/-- A suspended generator created by calling `find` (or `patient_find` /
`study_find`): the captured arguments, body not yet started. -/
inductive FindGenerator where
  | suspended (args : FindArgs)
  deriving Repr, DecidableEq

/-- Calling `find(...)`: the body is deferred (it contains `yield`), so the
call itself performs no validation and no side effect; it always returns a
generator and never raises. -/
def find_call (args : FindArgs) : Except String FindGenerator :=
  .ok (.suspended args)

/-- The first `next()` on a `find` generator: runs the body from the top,
i.e. the pre-network validation phase, then the query loop. -/
def find_first_iteration (g : FindGenerator) : Except String (List (Nat × Nat)) :=
  match g with
  | .suspended args =>
    find_pre_network args.called_node args.start_date args.end_date

/-- Calling `patient_find(...)` (or `study_find`): also a generator
function, so the call defers the whole body, including the inner
`find(...)` call. -/
def patient_find_call (args : FindArgs) : Except String FindGenerator :=
  .ok (.suspended args)

/-- The first `next()` on a `patient_find` generator: runs
`results = find(...)` (which only creates the inner generator) and then
starts iterating it, which runs `find`'s validation. -/
def patient_find_first_iteration (g : FindGenerator) :
    Except String (List (Nat × Nat)) :=
  match g with
  | .suspended args =>
    match find_call args with
    | .error msg => .error msg
    | .ok inner => find_first_iteration inner

/-- C9: calling `find` or `patient_find` with invalid arguments — called
node without network info, or `end_date < start_date` — raises nothing at
call time: the call returns a suspended generator capturing the arguments
(no validation, no side effect), and the `ValueError` surfaces exactly at
the first iteration. -/
theorem find_call_defers_validation (args : FindArgs)
    (hinvalid : args.called_node.has_net_info = false ∨
      (∃ e, args.end_date = some e ∧ e < args.start_date)) :
    find_call args = .ok (.suspended args) ∧
    patient_find_call args = .ok (.suspended args) ∧
    (∃ msg, find_first_iteration (.suspended args) = .error msg) ∧
    (∃ msg, patient_find_first_iteration (.suspended args) = .error msg) := by
  have herr : ∃ msg,
      find_pre_network args.called_node args.start_date args.end_date = .error msg := by
    rcases hinvalid with hnet | ⟨e, he, hlt⟩
    · exact ⟨"called node does not have a network address", by simp [find_pre_network, hnet]⟩
    · by_cases hnet : args.called_node.has_net_info
      · exact ⟨"the start date cannot be greater than the end date",
          by simp [find_pre_network, hnet, he, Option.getD, hlt]⟩
      · rw [Bool.not_eq_true] at hnet
        exact ⟨"called node does not have a network address", by simp [find_pre_network, hnet]⟩
  rcases herr with ⟨msg, hmsg⟩
  exact ⟨rfl, rfl, ⟨msg, by simp [find_first_iteration, hmsg]⟩,
    ⟨msg, by simp [patient_find_first_iteration, find_call, find_first_iteration, hmsg]⟩⟩

/-- Witness for C9: concrete invalid arguments (called node missing its
port). -/
theorem find_call_defers_validation_witness :
    (DicomNode.has_net_info ⟨"PACS", some "127.0.0.1", none⟩ = false ∨
      (∃ e, (some 5 : Option Nat) = some e ∧ e < 10)) ∧
    (find_call ⟨⟨"LOCAL", none, none⟩, ⟨"PACS", some "127.0.0.1", none⟩, 10, some 5⟩ =
      .ok (.suspended ⟨⟨"LOCAL", none, none⟩, ⟨"PACS", some "127.0.0.1", none⟩, 10, some 5⟩) ∧
      patient_find_call ⟨⟨"LOCAL", none, none⟩, ⟨"PACS", some "127.0.0.1", none⟩, 10, some 5⟩ =
        .ok (.suspended ⟨⟨"LOCAL", none, none⟩, ⟨"PACS", some "127.0.0.1", none⟩, 10, some 5⟩) ∧
      (∃ msg, find_first_iteration
        (.suspended ⟨⟨"LOCAL", none, none⟩, ⟨"PACS", some "127.0.0.1", none⟩, 10, some 5⟩) = .error msg) ∧
      (∃ msg, patient_find_first_iteration
        (.suspended ⟨⟨"LOCAL", none, none⟩, ⟨"PACS", some "127.0.0.1", none⟩, 10, some 5⟩) = .error msg)) :=
  ⟨Or.inl rfl,
    find_call_defers_validation
      ⟨⟨"LOCAL", none, none⟩, ⟨"PACS", some "127.0.0.1", none⟩, 10, some 5⟩ (Or.inl rfl)⟩

/-! ## net/c_move.py — the per-resource loop of `move` (C1)

`move`'s loop (lines 128–159) is embedded as the trace of events of one full
run of the generator.  The network environment is a function from resource
identifier to association outcome: the association is either not
established (`assoc.is_established` false) or established with a list of
`send_c_move` sub-operation statuses, where `none` models a falsy status
object (the `if status:` test).  The `finally` block releases the
association exactly when `assoc is not None and assoc.is_alive()`, which
holds exactly when the association was established. -/

/-- The outcome of `ae.associate(...)` plus `send_c_move` for one
resource. -/
inductive AssocOutcome where
  | notEstablished
  | established (statuses : List (Option Nat))
  deriving Repr, DecidableEq

/-- Events observable from a run of the `move` generator. -/
inductive MoveEvent where
  | yielded (status : Nat) (uid : String)
  | released (uid : String)
  deriving Repr, DecidableEq

/-- `Status.STATUS_FAILURE`, the synthetic failure status registered at
module import (`Status.add("STATUS_FAILURE", 0xC000)`). -/
def STATUS_FAILURE : Nat := 0xC000

/-- The `for uid in resources:` loop of `move`, inlined from the source:
associate; when established, yield `(status, uid)` for each truthy response
status and `(STATUS_FAILURE, uid)` for each falsy one; when not
established, yield a single `(STATUS_FAILURE, uid)`; in `finally`, release
when the association is alive; continue with the next resource. -/
def move_trace (net : String → AssocOutcome) : List String → List MoveEvent
  | [] => []
  | uid :: rest =>
    (match net uid with
     | .established statuses =>
       (statuses.map fun st =>
         match st with
         | some s => MoveEvent.yielded s uid
         | none => MoveEvent.yielded STATUS_FAILURE uid) ++ [MoveEvent.released uid]
     | .notEstablished => [MoveEvent.yielded STATUS_FAILURE uid]) ++ move_trace net rest

/-- The trace contributed by a single resource (the claim's per-resource
decomposition, to be proved equal to the loop's behaviour). -/
def move_resource_trace (net : String → AssocOutcome) (uid : String) : List MoveEvent :=
  match net uid with
  | .established statuses =>
    (statuses.map fun st => MoveEvent.yielded (st.getD STATUS_FAILURE) uid) ++
      [MoveEvent.released uid]
  | .notEstablished => [MoveEvent.yielded STATUS_FAILURE uid]

/-- The resource identifier an event belongs to. -/
def MoveEvent.uid : MoveEvent → String
  | .yielded _ u => u
  | .released u => u

theorem move_resource_trace_uid (net : String → AssocOutcome) (uid : String) :
    ∀ ev ∈ move_resource_trace net uid, ev.uid = uid := by
  intro ev hev
  unfold move_resource_trace at hev
  rcases hnet : net uid with _ | statuses <;> rw [hnet] at hev
  · simp at hev
    subst hev
    rfl
  · simp at hev
    rcases hev with ⟨st, _, rfl⟩ | rfl
    · cases st <;> rfl
    · rfl

theorem move_trace_eq_flatMap (net : String → AssocOutcome) (resources : List String) :
    move_trace net resources = resources.flatMap (move_resource_trace net) := by
  induction resources with
  | nil => rfl
  | cons uid rest ih =>
    simp only [move_trace, List.flatMap_cons, ih, move_resource_trace]
    rcases hnet : net uid with _ | statuses
    · rfl
    · simp only [List.append_cancel_right_eq, List.map_inj_left]
      intro st _
      cases st <;> rfl

theorem move_trace_count_failure (net : String → AssocOutcome)
    (resources : List String) (uid : String) (hnet : net uid = .notEstablished) :
    (move_trace net resources).count (MoveEvent.yielded STATUS_FAILURE uid) =
      resources.count uid := by
  induction resources with
  | nil => rfl
  | cons v rest ih =>
    rw [move_trace_eq_flatMap] at ih ⊢
    simp only [List.flatMap_cons, List.count_append, ih, List.count_cons]
    by_cases hv : v = uid
    · subst hv
      simp [move_resource_trace, hnet, List.count_cons, STATUS_FAILURE]
      omega
    · have hzero : (move_resource_trace net v).count (MoveEvent.yielded STATUS_FAILURE uid) = 0 := by
        rw [List.count_eq_zero]
        intro hmem
        exact hv ((move_resource_trace_uid net v _ hmem).symm ▸ rfl)
      simp [hzero, hv]

/-- C1: a full run of `move` processes the batch resource by resource —
the trace is the concatenation of the per-resource traces, so no
per-resource network failure aborts the batch.  A resource whose
association is not established contributes exactly one synthetic
`(0xC000, uid)` yield (and, when it occurs once in the batch, exactly one
such yield exists in the whole trace); an established association
contributes one `(status, uid)` yield per non-null status, `(0xC000, uid)`
per null status, followed by a release of the association; every
established association is released. -/
theorem move_batch_isolation (net : String → AssocOutcome) (resources : List String) :
    move_trace net resources = resources.flatMap (move_resource_trace net) ∧
    (∀ uid, net uid = .notEstablished →
      move_resource_trace net uid = [MoveEvent.yielded STATUS_FAILURE uid]) ∧
    (∀ uid statuses, net uid = .established statuses →
      move_resource_trace net uid =
        (statuses.map fun st => MoveEvent.yielded (st.getD STATUS_FAILURE) uid) ++
          [MoveEvent.released uid]) ∧
    (∀ uid, net uid = .notEstablished →
      (move_trace net resources).count (MoveEvent.yielded STATUS_FAILURE uid) =
        resources.count uid) ∧
    (∀ uid statuses, uid ∈ resources → net uid = .established statuses →
      MoveEvent.released uid ∈ move_trace net resources) := by
  refine ⟨move_trace_eq_flatMap net resources, ?_, ?_, ?_, ?_⟩
  · intro uid hnet
    simp [move_resource_trace, hnet]
  · intro uid statuses hnet
    simp [move_resource_trace, hnet]
  · intro uid hnet
    exact move_trace_count_failure net resources uid hnet
  · intro uid statuses hmem hnet
    rw [move_trace_eq_flatMap]
    rw [List.mem_flatMap]
    exact ⟨uid, hmem, by simp [move_resource_trace, hnet]⟩

/-- A concrete network environment for the C1 witness: the association for
"uid1" fails, the one for "uid2" is established and returns a pending
status, a falsy status and a success status. -/
def exampleNet : String → AssocOutcome := fun uid =>
  if uid = "uid1" then .notEstablished
  else .established [some 0xFF00, none, some 0]

/-- Witness for C1, at `exampleNet` and the batch `["uid1", "uid2"]`. -/
theorem move_batch_isolation_witness :
    (move_trace exampleNet ["uid1", "uid2"]).count
        (MoveEvent.yielded STATUS_FAILURE "uid1") = ["uid1", "uid2"].count "uid1" ∧
    MoveEvent.released "uid2" ∈ move_trace exampleNet ["uid1", "uid2"] :=
  ⟨(move_batch_isolation exampleNet ["uid1", "uid2"]).2.2.2.1 "uid1" rfl,
    (move_batch_isolation exampleNet ["uid1", "uid2"]).2.2.2.2 "uid2"
      [some 0xFF00, none, some 0] (by simp) rfl⟩

/-! ## net/storescp.py — `default_store_handle` (C4, C5)

Path components are Python strings, modelled as `List Char`.
`os.path.join` (POSIX) folds components: an absolute component restarts the
path, a component appended to an empty or `/`‑terminated prefix is
concatenated directly, otherwise a `/` separator is inserted. -/

/-- A Python string viewed as its character sequence. -/
abbrev Str := List Char

/-- One folding step of POSIX `os.path.join`. -/
def osJoinStep (acc b : Str) : Str :=
  if b.head? = some '/' then b
  else if acc = [] ∨ acc.getLast? = some '/' then acc ++ b
  else acc ++ '/' :: b

/-- POSIX `os.path.join root parts...`. -/
def osJoin (root : Str) (parts : List Str) : Str :=
  parts.foldl osJoinStep root

/-- The DICOM identifiers of a received dataset that the storage path
depends on. -/
structure StoreDataset where
  patientID : Str
  studyInstanceUID : Str
  seriesInstanceUID : Str
  sopInstanceUID : Str
  deriving Repr, DecidableEq

/-- The destination path computed by `default_store_handle` (lines 72–86
of `storescp.py`): `os.path.join` of the components selected by `sort_by`,
then `dest += ".dcm"`. -/
def store_dest_path (data_dir : Str) (sort_by : StorageSortKey)
    (ds : StoreDataset) : Str :=
  (match sort_by with
   | .PATIENT => osJoin data_dir
      [ds.patientID, ds.studyInstanceUID, ds.seriesInstanceUID, ds.sopInstanceUID]
   | .STUDY => osJoin data_dir
      [ds.studyInstanceUID, ds.seriesInstanceUID, ds.sopInstanceUID]
   | .IMAGE => osJoin data_dir [ds.sopInstanceUID]) ++ ".dcm".toList

/-- `Status.UNABLE_TO_DECODE` registered at module import. -/
def UNABLE_TO_DECODE : Nat := 0xC215
/-- `Status.UNABLE_TO_PROCESS` registered at module import. -/
def UNABLE_TO_PROCESS : Nat := 0xC216
/-- `Status.UNABLE_TO_RECORD` registered at module import. -/
def UNABLE_TO_RECORD : Nat := 0xC217

/-- The environment of one C-STORE event: whether each fallible step of the
handler succeeds, and the dataset's identifiers.  `decode_ok` is the
`ds.file_meta = event.file_meta` block (its bare `except`), `write_ok` the
`os.makedirs` + `ds.save_as` block (catching `OSError`), `db_ok` the
`add_image` + `update_retrieved_study` block (catching
`SQLAlchemyError`). -/
structure StoreEvent where
  decode_ok : Bool
  write_ok : Bool
  db_ok : Bool
  ds : StoreDataset
  deriving Repr, DecidableEq

/-- What one invocation of `default_store_handle` returns and leaves
behind: the returned status, the path of the file left on disk (if any),
and whether the persistence layer was invoked. -/
structure StoreResult where
  status : Nat
  written : Option Str
  db_touched : Bool
  deriving Repr, DecidableEq

/-- `default_store_handle` (lines 65–109 of `storescp.py`): decode, compute
the destination path, write, then persist if a `db_session` is attached;
each failing step returns its status immediately, success returns
`0x0000`. -/
def default_store_handle (ev : StoreEvent) (data_dir : Str)
    (sort_by : StorageSortKey) (has_db_session : Bool) : StoreResult :=
  if !ev.decode_ok then
    ⟨UNABLE_TO_DECODE, none, false⟩
  else
    let dest := store_dest_path data_dir sort_by ev.ds
    if !ev.write_ok then
      ⟨UNABLE_TO_PROCESS, none, false⟩
    else if has_db_session && !ev.db_ok then
      ⟨UNABLE_TO_RECORD, some dest, true⟩
    else
      ⟨0x0000, some dest, has_db_session⟩

/-- C4: `default_store_handle` returns `UNABLE_TO_DECODE` (0xC215) with no
file written and the persistence layer untouched when attaching the
transfer-syntax metadata fails; `UNABLE_TO_PROCESS` (0xC216) when the disk
write fails; `UNABLE_TO_RECORD` (0xC217) when the persistence step fails,
with the already-written file remaining on disk; and `0x0000` otherwise. -/
theorem default_store_handle_statuses (ev : StoreEvent) (data_dir : Str)
    (sort_by : StorageSortKey) (has_db_session : Bool) :
    (ev.decode_ok = false →
      default_store_handle ev data_dir sort_by has_db_session =
        ⟨UNABLE_TO_DECODE, none, false⟩) ∧
    (ev.decode_ok = true → ev.write_ok = false →
      default_store_handle ev data_dir sort_by has_db_session =
        ⟨UNABLE_TO_PROCESS, none, false⟩) ∧
    (ev.decode_ok = true → ev.write_ok = true → has_db_session = true →
      ev.db_ok = false →
      default_store_handle ev data_dir sort_by has_db_session =
        ⟨UNABLE_TO_RECORD, some (store_dest_path data_dir sort_by ev.ds), true⟩) ∧
    (ev.decode_ok = true → ev.write_ok = true →
      (has_db_session = false ∨ ev.db_ok = true) →
      default_store_handle ev data_dir sort_by has_db_session =
        ⟨0x0000, some (store_dest_path data_dir sort_by ev.ds), has_db_session⟩) := by
  refine ⟨?_, ?_, ?_, ?_⟩
  · intro h
    simp [default_store_handle, h]
  · intro h1 h2
    simp [default_store_handle, h1, h2]
  · intro h1 h2 h3 h4
    simp [default_store_handle, h1, h2, h3, h4]
  · intro h1 h2 h3
    rcases h3 with h3 | h3 <;> simp [default_store_handle, h1, h2, h3]

/-- Witness for C4, at a concrete event whose persistence step fails. -/
theorem default_store_handle_statuses_witness :
    default_store_handle
        ⟨true, true, false, ⟨"p1".toList, "st1".toList, "se1".toList, "sop1".toList⟩⟩
        "data".toList StorageSortKey.PATIENT true =
      ⟨UNABLE_TO_RECORD,
        some (store_dest_path "data".toList StorageSortKey.PATIENT
          ⟨"p1".toList, "st1".toList, "se1".toList, "sop1".toList⟩), true⟩ :=
  (default_store_handle_statuses
      ⟨true, true, false, ⟨"p1".toList, "st1".toList, "se1".toList, "sop1".toList⟩⟩
      "data".toList StorageSortKey.PATIENT true).2.2.1 rfl rfl rfl rfl

/-- A path component that is nonempty and neither starts nor ends with the
separator (the shape of DICOM UIDs and patient identifiers). -/
def normalComponent (c : Str) : Prop :=
  c ≠ [] ∧ c.head? ≠ some '/' ∧ c.getLast? ≠ some '/'

theorem osJoinStep_normal (a b : Str) (ha1 : a ≠ []) (ha2 : a.getLast? ≠ some '/')
    (hb : normalComponent b) :
    osJoinStep a b = a ++ '/' :: b := by
  rcases hb with ⟨_, hb2, _⟩
  unfold osJoinStep
  rw [if_neg hb2, if_neg (not_or.mpr ⟨ha1, ha2⟩)]

theorem append_sep_ne_nil (a b : Str) : a ++ '/' :: b ≠ [] := by
  simp

theorem append_sep_getLast (a b : Str) (hb1 : b ≠ []) (hb3 : b.getLast? ≠ some '/') :
    (a ++ '/' :: b).getLast? ≠ some '/' := by
  rw [List.getLast?_append_of_ne_nil _ (by simp : ('/' :: b) ≠ [])]
  rw [show '/' :: b = ['/'] ++ b from rfl, List.getLast?_append_of_ne_nil _ hb1]
  exact hb3

/-- C5: for a root directory and normal identifier components, the storage
path of `default_store_handle` is fully determined by `StorageSortKey`:
`PATIENT` nests `<root>/<PatientID>/<StudyInstanceUID>/<SeriesInstanceUID>/
<SOPInstanceUID>.dcm`, `STUDY` is the same with the `PatientID` segment
omitted, and `IMAGE` is the flat `<root>/<SOPInstanceUID>.dcm` with no
intermediate Patient/Study/Series directories. -/
theorem storage_path_layout (data_dir : Str) (ds : StoreDataset)
    (hd1 : data_dir ≠ []) (hd2 : data_dir.getLast? ≠ some '/')
    (hp : normalComponent ds.patientID)
    (hst : normalComponent ds.studyInstanceUID)
    (hse : normalComponent ds.seriesInstanceUID)
    (hsop : normalComponent ds.sopInstanceUID) :
    store_dest_path data_dir StorageSortKey.PATIENT ds =
      data_dir ++ '/' :: ds.patientID ++ '/' :: ds.studyInstanceUID ++
        '/' :: ds.seriesInstanceUID ++ '/' :: ds.sopInstanceUID ++ ".dcm".toList ∧
    store_dest_path data_dir StorageSortKey.STUDY ds =
      data_dir ++ '/' :: ds.studyInstanceUID ++ '/' :: ds.seriesInstanceUID ++
        '/' :: ds.sopInstanceUID ++ ".dcm".toList ∧
    store_dest_path data_dir StorageSortKey.IMAGE ds =
      data_dir ++ '/' :: ds.sopInstanceUID ++ ".dcm".toList := by
  refine ⟨?_, ?_, ?_⟩
  · simp only [store_dest_path, osJoin, List.foldl]
    rw [osJoinStep_normal _ _ hd1 hd2 hp,
      osJoinStep_normal _ _ (append_sep_ne_nil _ _)
        (append_sep_getLast _ _ hp.1 hp.2.2) hst,
      osJoinStep_normal _ _ (append_sep_ne_nil _ _)
        (append_sep_getLast _ _ hst.1 hst.2.2) hse,
      osJoinStep_normal _ _ (append_sep_ne_nil _ _)
        (append_sep_getLast _ _ hse.1 hse.2.2) hsop]
  · simp only [store_dest_path, osJoin, List.foldl]
    rw [osJoinStep_normal _ _ hd1 hd2 hst,
      osJoinStep_normal _ _ (append_sep_ne_nil _ _)
        (append_sep_getLast _ _ hst.1 hst.2.2) hse,
      osJoinStep_normal _ _ (append_sep_ne_nil _ _)
        (append_sep_getLast _ _ hse.1 hse.2.2) hsop]
  · simp only [store_dest_path, osJoin, List.foldl]
    rw [osJoinStep_normal _ _ hd1 hd2 hsop]

/-- Witness for C5: concrete components, with the three resulting paths
spelled out. -/
theorem storage_path_layout_witness :
    store_dest_path "data".toList StorageSortKey.PATIENT
        ⟨"p1".toList, "st1".toList, "se1".toList, "sop1".toList⟩ =
      "data/p1/st1/se1/sop1.dcm".toList ∧
    store_dest_path "data".toList StorageSortKey.STUDY
        ⟨"p1".toList, "st1".toList, "se1".toList, "sop1".toList⟩ =
      "data/st1/se1/sop1.dcm".toList ∧
    store_dest_path "data".toList StorageSortKey.IMAGE
        ⟨"p1".toList, "st1".toList, "se1".toList, "sop1".toList⟩ =
      "data/sop1.dcm".toList := by
  have h := storage_path_layout "data".toList
    ⟨"p1".toList, "st1".toList, "se1".toList, "sop1".toList⟩
    (by decide) (by decide) ⟨by decide, by decide, by decide⟩
    ⟨by decide, by decide, by decide⟩ ⟨by decide, by decide, by decide⟩
    ⟨by decide, by decide, by decide⟩
  refine ⟨?_, ?_, ?_⟩
  · rw [h.1]; decide
  · rw [h.2.1]; decide
  · rw [h.2.2]; decide

/-! ## db/crud.py — `update_retrieved_study` (C10)

The `study_finds` table is a list of rows;
`session.query(StudyFind).filter(StudyFind.study_uid == uid).first()` is
the first row with the given uid, and committing the mutated row replaces
it in place. -/

/-- A `StudyFind` row, restricted to the columns `update_retrieved_study`
reads or writes. -/
structure StudyFind where
  study_uid : String
  retrieved_on : Option Nat
  deriving Repr, DecidableEq

/-- `crud.update_retrieved_study` (lines 128–156): fetch the first found
study with the given uid; if there is none return `None`; if it has no
`retrieved_on` yet, set it to the current time (`now`) and commit; either
way return the row.  The result is the new table paired with the returned
row. -/
def update_retrieved_study (db : List StudyFind) (study_uid : String)
    (now : Nat) : List StudyFind × Option StudyFind :=
  match db with
  | [] => ([], none)
  | r :: rest =>
    if r.study_uid = study_uid then
      match r.retrieved_on with
      | none =>
        let r' : StudyFind := { r with retrieved_on := some now }
        (r' :: rest, some r')
      | some _ => (r :: rest, some r)
    else
      let res := update_retrieved_study rest study_uid now
      (r :: res.1, res.2)

theorem update_retrieved_study_no_row (db : List StudyFind) (uid : String)
    (now : Nat) (h : ∀ r ∈ db, r.study_uid ≠ uid) :
    update_retrieved_study db uid now = (db, none) := by
  induction db with
  | nil => rfl
  | cons r rest ih =>
    have hr : r.study_uid ≠ uid := h r (by simp)
    simp only [update_retrieved_study, if_neg hr]
    rw [ih (fun x hx => h x (by simp [hx]))]

theorem update_retrieved_study_sets_time (db : List StudyFind) (uid : String)
    (now : Nat) (r : StudyFind)
    (hfind : db.find? (fun x => x.study_uid == uid) = some r)
    (hnone : r.retrieved_on = none) :
    (update_retrieved_study db uid now).2 = some { r with retrieved_on := some now } := by
  induction db with
  | nil => simp [List.find?] at hfind
  | cons x rest ih =>
    by_cases hx : x.study_uid = uid
    · rw [List.find?_cons_of_pos _ (by simp [hx])] at hfind
      cases hfind
      simp only [update_retrieved_study, if_pos hx, hnone]
    · rw [List.find?_cons_of_neg _ (by simp [hx])] at hfind
      simp only [update_retrieved_study, if_neg hx]
      exact ih hfind

theorem update_retrieved_study_already (db : List StudyFind) (uid : String)
    (now : Nat) (r : StudyFind) (t0 : Nat)
    (hfind : db.find? (fun x => x.study_uid == uid) = some r)
    (hsome : r.retrieved_on = some t0) :
    update_retrieved_study db uid now = (db, some r) := by
  induction db with
  | nil => simp [List.find?] at hfind
  | cons x rest ih =>
    by_cases hx : x.study_uid = uid
    · rw [List.find?_cons_of_pos _ (by simp [hx])] at hfind
      cases hfind
      simp only [update_retrieved_study, if_pos hx, hsome]
    · rw [List.find?_cons_of_neg _ (by simp [hx])] at hfind
      simp only [update_retrieved_study, if_neg hx]
      rw [ih hfind]

theorem update_retrieved_study_idem (db : List StudyFind) (uid : String)
    (t1 t2 : Nat) :
    update_retrieved_study (update_retrieved_study db uid t1).1 uid t2 =
      update_retrieved_study db uid t1 := by
  induction db with
  | nil => rfl
  | cons r rest ih =>
    by_cases hr : r.study_uid = uid
    · rcases hro : r.retrieved_on with _ | t0 <;>
        simp [update_retrieved_study, if_pos hr, hro]
    · simp only [update_retrieved_study, if_neg hr]
      rw [ih]

/-- C10: `update_retrieved_study` is idempotent.  With no matching
found-study row it returns `None` and changes nothing; the first call for a
row whose `retrieved_on` is unset sets it to the current time and returns
the row; a call for a row already retrieved at `t0` changes nothing and
returns the row as is; and re-running the operation at any later time is
the identity — the table and the returned row (hence the original
retrieval timestamp) are unchanged. -/
theorem update_retrieved_study_spec (db : List StudyFind) (uid : String)
    (t1 t2 : Nat) :
    ((∀ r ∈ db, r.study_uid ≠ uid) → update_retrieved_study db uid t1 = (db, none)) ∧
    (∀ r, db.find? (fun x => x.study_uid == uid) = some r → r.retrieved_on = none →
      (update_retrieved_study db uid t1).2 = some { r with retrieved_on := some t1 }) ∧
    (∀ r t0, db.find? (fun x => x.study_uid == uid) = some r → r.retrieved_on = some t0 →
      update_retrieved_study db uid t1 = (db, some r)) ∧
    update_retrieved_study (update_retrieved_study db uid t1).1 uid t2 =
      update_retrieved_study db uid t1 :=
  ⟨update_retrieved_study_no_row db uid t1,
    fun r hf hn => update_retrieved_study_sets_time db uid t1 r hf hn,
    fun r t0 hf hs => update_retrieved_study_already db uid t1 r t0 hf hs,
    update_retrieved_study_idem db uid t1 t2⟩

/-- Witness for C10, on a concrete two-row table. -/
theorem update_retrieved_study_spec_witness :
    ((∀ r ∈ [StudyFind.mk "s1" none, StudyFind.mk "s2" (some 7)],
        r.study_uid ≠ "s3") →
      update_retrieved_study [StudyFind.mk "s1" none, StudyFind.mk "s2" (some 7)] "s3" 11 =
        ([StudyFind.mk "s1" none, StudyFind.mk "s2" (some 7)], none)) ∧
    (update_retrieved_study [StudyFind.mk "s1" none, StudyFind.mk "s2" (some 7)] "s1" 11).2 =
      some (StudyFind.mk "s1" (some 11)) ∧
    update_retrieved_study
        (update_retrieved_study [StudyFind.mk "s1" none, StudyFind.mk "s2" (some 7)] "s1" 11).1
        "s1" 23 =
      update_retrieved_study [StudyFind.mk "s1" none, StudyFind.mk "s2" (some 7)] "s1" 11 :=
  ⟨(update_retrieved_study_spec _ "s3" 11 23).1,
    (update_retrieved_study_spec _ "s1" 11 23).2.1 (StudyFind.mk "s1" none) (by decide) rfl,
    (update_retrieved_study_spec _ "s1" 11 23).2.2.2⟩

/-! ## io/base_parser.py — `parse_dir` (C6)

`parse_dir` enqueues every file under `src`, lets the worker threads parse
them (a parse that raises is swallowed by the worker's broad
`except Exception` and produces nothing; a success pushes one result to the
consumer queue) and the consumer thread invokes the sink callback once per
result.  Workers only exit on an empty queue after the stop flag is set,
and the stop flag is set after the enqueuer has pushed every file, so every
file is processed exactly once.  The model takes the parse outcome of each
file as a function (`none` models a file whose decode or extraction
raises). -/

/-- The results pushed to the consumer queue by the worker loop of
`_thread_worker`, processing the queued files in order: a raising parse
contributes nothing, a successful parse contributes its result. -/
def thread_worker_results {α β : Type} (parse : α → Option β) :
    List α → List β
  | [] => []
  | f :: rest =>
    match parse f with
    | some r => r :: thread_worker_results parse rest
    | none => thread_worker_results parse rest

/-- `_thread_consumer` invokes the sink callback once per result dequeued
from the consumer queue. -/
def thread_consumer_invocations {β : Type} (results : List β) : Nat :=
  results.length

/-- The number of sink-callback invocations of one `parse_dir` run over the
given files. -/
def parse_dir_sink_invocations {α β : Type} (parse : α → Option β)
    (files : List α) : Nat :=
  thread_consumer_invocations (thread_worker_results parse files)

theorem thread_worker_results_length {α β : Type} (parse : α → Option β)
    (files : List α) :
    (thread_worker_results parse files).length =
      (files.filter (fun f => (parse f).isSome)).length := by
  induction files with
  | nil => rfl
  | cons f rest ih =>
    rcases hf : parse f with _ | r <;>
      simp [thread_worker_results, List.filter, hf, ih]

/-- C6: a `parse_dir` run over `N` files of which `M` fail to decode or
raise during extraction completes (the model is a total function — all
per-file exceptions are swallowed) and invokes the sink exactly `N − M`
times, i.e. once per successfully parsed file; the count is independent of
the order in which racing workers process the files; and in the
specification's scenario — 5 files of which 2 are corrupt — exactly 3
results reach the sink. -/
theorem parse_dir_emits_one_result_per_parsed_file {α β : Type}
    (parse : α → Option β) (files : List α) :
    parse_dir_sink_invocations parse files =
      (files.filter (fun f => (parse f).isSome)).length ∧
    (∀ files' : List α, files'.Perm files →
      parse_dir_sink_invocations parse files' =
        parse_dir_sink_invocations parse files) ∧
    parse_dir_sink_invocations
        (fun f : Nat => if f = 2 ∨ f = 4 then none else some f) [1, 2, 3, 4, 5] = 3 := by
  refine ⟨thread_worker_results_length parse files, ?_, by decide⟩
  intro files' hperm
  unfold parse_dir_sink_invocations thread_consumer_invocations
  rw [thread_worker_results_length, thread_worker_results_length]
  exact (hperm.filter _).length_eq

/-- Witness for C6: the scenario's five files with two corrupt ones, with
the worker order reversed by the race. -/
theorem parse_dir_emits_one_result_per_parsed_file_witness :
    parse_dir_sink_invocations
        (fun f : Nat => if f = 2 ∨ f = 4 then none else some f) [5, 4, 3, 2, 1] =
      parse_dir_sink_invocations
        (fun f : Nat => if f = 2 ∨ f = 4 then none else some f) [1, 2, 3, 4, 5] :=
  (parse_dir_emits_one_result_per_parsed_file
      (fun f : Nat => if f = 2 ∨ f = 4 then none else some f)
      [1, 2, 3, 4, 5]).2.1 [5, 4, 3, 2, 1] (by decide)

end Pacsanini
